import Mathlib

/-!
Formal model of the contact-form submission handler
(`src/functions/submit.js`, Cloudflare Pages function `onRequestPost`).

The handler is shallowly embedded as a total Lean function.  The two
effectful, fallible steps of the JavaScript code are made explicit
parameters of the model:

* `request.formData()` may throw on a malformed body — the inbound
  request is an inductive `RequestBody` that is either `malformed`
  (the parse throws) or `formEntries` (the parsed field/value pairs,
  in order);
* `fetch(apiRequest)` may throw (a transport-level network error) or
  complete with an upstream HTTP response — the `FetchOutcome`
  parameter describes which happened for this invocation.

Everything else in the source is pure string manipulation and is
translated directly.
-/

namespace Submit

/-- Environment variables read from the Cloudflare Pages project settings. -/
structure Env where
  TO_EMAIL : String
  FORWARDEMAIL_USERNAME : String
  FORWARDEMAIL_PASSWORD : String
deriving DecidableEq, Repr

/-- An HTTP response produced by the handler (`new Response(body, init)`).
`headers` is the explicit header list of the `init` object; a `Response`
constructed without a `headers` entry has `headers = []`. -/
structure Response where
  body : String
  status : Nat
  headers : List (String × String)
deriving DecidableEq, Repr

/-- The JSON payload sent to the forwardemail.net API (`apiPayload` in the
source).  The JavaScript field `from` is a reserved word in Lean, so it is
named `fromField` here. -/
structure ApiPayload where
  «to» : List String
  fromField : String
  replyTo : String
  subject : String
  html : String
deriving DecidableEq, Repr

/-- The upstream HTTP response observed when `fetch` completes
(status, statusText, and the text of the body). -/
structure ApiResponse where
  status : Nat
  statusText : String
  body : String
deriving DecidableEq, Repr

/-- `Response.ok` of the Fetch standard: status in the inclusive
range 200–299. -/
def ApiResponse.ok (r : ApiResponse) : Bool :=
  200 ≤ r.status && r.status ≤ 299

/-- Behaviour of the single outbound `fetch` call during one invocation. -/
inductive FetchOutcome where
  /-- `fetch` threw (network error / transport failure). -/
  | networkError
  /-- `fetch` completed with an upstream HTTP response. -/
  | completed (r : ApiResponse)
deriving DecidableEq, Repr

/-- The inbound request body, as seen through `request.formData()`. -/
inductive RequestBody where
  /-- `request.formData()` throws (body is not parseable as form data). -/
  | malformed
  /-- The parsed form entries, as an ordered list of (name, value) pairs. -/
  | formEntries (entries : List (String × String))
deriving DecidableEq, Repr

/-- The outbound `Request` object built for the forwardemail.net API. -/
structure OutboundRequest where
  url : String
  method : String
  headers : List (String × String)
  body : String
deriving DecidableEq, Repr

/-- Result of one handler invocation: the HTTP response returned to the
caller, together with the outbound call that was issued (`none` when no
outbound call was attempted, `some (payload, request)` when `fetch` was
invoked with that request, whose body serialises that payload). -/
structure HandlerOutcome where
  response : Response
  outbound : Option (ApiPayload × OutboundRequest)
deriving DecidableEq, Repr

/-! ### Base64 (`btoa`) -/

/-- The base64 alphabet. -/
def b64Alphabet : List Char :=
  "ABCDEFGHIJKLMNOPQRSTUVWXYZabcdefghijklmnopqrstuvwxyz0123456789+/".data

/-- The base64 digit for a 6-bit value. -/
def b64Char (n : Nat) : Char := b64Alphabet.getD n 'A'

/-- Base64-encode a byte sequence, 3 bytes to 4 digits, padded with `=`. -/
def b64Encode : List Nat → List Char
  | [] => []
  | [b0] =>
      [b64Char (b0 / 4), b64Char (b0 % 4 * 16), '=', '=']
  | [b0, b1] =>
      [b64Char (b0 / 4), b64Char (b0 % 4 * 16 + b1 / 16),
       b64Char (b1 % 16 * 4), '=']
  | b0 :: b1 :: b2 :: rest =>
      b64Char (b0 / 4) :: b64Char (b0 % 4 * 16 + b1 / 16) ::
      b64Char (b1 % 16 * 4 + b2 / 64) :: b64Char (b2 % 64) :: b64Encode rest

/-- JavaScript `btoa`: base64 of the code units of a Latin-1 string (for the
ASCII credentials at hand the code units are the code points). -/
def btoa (s : String) : String :=
  String.mk (b64Encode (s.data.map Char.toNat))

/-! ### `JSON.stringify` for the objects the handler serialises -/

/-- Lowercase hex digit. -/
def hexDigit (n : Nat) : Char := "0123456789abcdef".data.getD n '0'

/-- Escaping of one character inside a JSON string literal, following
`JSON.stringify`. -/
def jsonEscapeChar (c : Char) : List Char :=
  if c = '"' then ['\\', '"']
  else if c = '\\' then ['\\', '\\']
  else if c = '\x08' then ['\\', 'b']
  else if c = '\t' then ['\\', 't']
  else if c = '\n' then ['\\', 'n']
  else if c = '\x0c' then ['\\', 'f']
  else if c = '\r' then ['\\', 'r']
  else if c.toNat < 32 then
    ['\\', 'u', '0', '0', hexDigit (c.toNat / 16), hexDigit (c.toNat % 16)]
  else [c]

/-- `JSON.stringify` of a string value. -/
def jsonString (s : String) : String :=
  "\"" ++ String.mk (s.data.map jsonEscapeChar).flatten ++ "\""

/-- `JSON.stringify(apiPayload)`: keys in insertion order, no whitespace. -/
def jsonStringifyPayload (p : ApiPayload) : String :=
  "\x7b\"to\":[" ++ String.intercalate "," (p.«to».map jsonString) ++
  "],\"from\":" ++ jsonString p.fromField ++
  ",\"replyTo\":" ++ jsonString p.replyTo ++
  ",\"subject\":" ++ jsonString p.subject ++
  ",\"html\":" ++ jsonString p.html ++ "\x7d"

/-- `JSON.stringify({ success: false, message: msg })`. -/
def jsonFailureBody (msg : String) : String :=
  "\x7b\"success\":false,\"message\":" ++ jsonString msg ++ "\x7d"

/-! ### The three structured failure responses and the success response -/

/-- Status 400, `{"success":false,"message":"Missing required fields."}`. -/
def validationFailureResponse : Response :=
  { body := jsonFailureBody "Missing required fields."
    status := 400
    headers := [("Content-Type", "application/json")] }

/-- Status 500, `{"success":false,"message":"Failed to send email."}`. -/
def deliveryFailureResponse : Response :=
  { body := jsonFailureBody "Failed to send email."
    status := 500
    headers := [("Content-Type", "application/json")] }

/-- Status 500, `{"success":false,"message":"An unexpected error occurred."}`
(the top-level `catch` block). -/
def unexpectedErrorResponse : Response :=
  { body := jsonFailureBody "An unexpected error occurred."
    status := 500
    headers := [("Content-Type", "application/json")] }

/-- `new Response('OK', { status: 200 })`: plain text, no headers object. -/
def okResponse : Response :=
  { body := "OK", status := 200, headers := [] }

/-! ### Newline replacement in the message (`message.replace(/\n/g, '<br>')`) -/

/-- The characters of the line-break marker `<br>`. -/
def brMark : List Char := ['<', 'b', 'r', '>']

/-- Global replacement of `'\n'` by `<br>` on a character list. -/
def replaceNlChars : List Char → List Char
  | [] => []
  | c :: t => if c = '\n' then brMark ++ replaceNlChars t else c :: replaceNlChars t

/-- `s.replace(/\n/g, '<br>')`. -/
def replaceNewlines (s : String) : String :=
  String.mk (replaceNlChars s.data)

/-- Number of positions at which the marker `<br>` occurs in a character
list. -/
def countBr : List Char → Nat
  | [] => 0
  | c :: t => (if (c :: t).take 4 = brMark then 1 else 0) + countBr t

/-- Number of `'\n'` characters in a character list. -/
def countNl : List Char → Nat
  | [] => 0
  | c :: t => (if c = '\n' then 1 else 0) + countNl t

/-- Number of occurrences of `<br>` in a string. -/
def countBrS (s : String) : Nat := countBr s.data

/-- Number of newline characters in a string. -/
def countNlS (s : String) : Nat := countNl s.data

/-! ### The HTML template of the payload

The `html` field of `apiPayload` is the template literal of the source
(lines 32–40), reproduced with its exact whitespace; the interpolation
slots split it into four fixed pieces. -/

/-- Template text before the interpolated `name`. -/
def htmlTplA : String :=
  "\n        <p>You have received a new message from your website contact form.</p>\n        <hr>\n        <p><b>Name:</b> "

/-- Template text between `name` and the interpolated `email`. -/
def htmlTplB : String :=
  "</p>\n        <p><b>Email:</b> "

/-- Template text between `email` and the rendered message. -/
def htmlTplC : String :=
  "</p>\n        <hr>\n        <p><b>Message:</b></p>\n        <p>"

/-- Template text after the rendered message. -/
def htmlTplD : String :=
  "</p>\n      "

/-- The forwardemail.net API payload built from the submitted fields
(`apiPayload` in the source, lines 27–41). -/
def apiPayload (env : Env) (name email subject message : String) : ApiPayload :=
  { «to» := [env.TO_EMAIL]
    fromField := "\"" ++ name ++ "\" <" ++ env.FORWARDEMAIL_USERNAME ++ ">"
    replyTo := "\"" ++ name ++ "\" <" ++ email ++ ">"
    subject := "New Contact Form Submission: " ++ subject
    html := htmlTplA ++ name ++ htmlTplB ++ email ++ htmlTplC ++
            replaceNewlines message ++ htmlTplD }

/-! ### Form decoding and validation -/

/-- `Object.fromEntries(formData)` looked up at one key: successive entries
overwrite earlier ones, so the last occurrence of a repeated field wins;
`none` models an absent property (`undefined`). -/
def lookupField (entries : List (String × String)) (key : String) : Option String :=
  entries.foldl (fun acc kv => if kv.1 = key then some kv.2 else acc) none

/-- Truth of `!body.f` for a string-or-undefined property: `undefined` and
the empty string are the falsy cases. -/
def falsyField (v : Option String) : Bool :=
  match v with
  | none => true
  | some s => s == ""

/-- The validation condition of line 19:
`!body.name || !body.email || !body.subject || !body.message`. -/
def missingAny (entries : List (String × String)) : Bool :=
  falsyField (lookupField entries "name") ||
  falsyField (lookupField entries "email") ||
  falsyField (lookupField entries "subject") ||
  falsyField (lookupField entries "message")

/-- The URL of the forwardemail.net send-email endpoint. -/
def apiUrl : String := "https://api.forwardemail.net/v1/emails"

/-- The handler (`onRequestPost` in the source).  `request` is the inbound
body as seen through `request.formData()`, `env` the environment bindings,
and `fetched` the behaviour of the single outbound `fetch` call.  A thrown
exception (malformed body, network error) transfers control to the
top-level `catch`, which produces `unexpectedErrorResponse`. -/
def onRequestPost (request : RequestBody) (env : Env) (fetched : FetchOutcome) :
    HandlerOutcome :=
  match request with
  | .malformed =>
      -- `request.formData()` threw; caught by the top-level catch.
      { response := unexpectedErrorResponse, outbound := none }
  | .formEntries entries =>
      let name := lookupField entries "name"
      let email := lookupField entries "email"
      let subject := lookupField entries "subject"
      let message := lookupField entries "message"
      if falsyField name || falsyField email || falsyField subject ||
         falsyField message then
        { response := validationFailureResponse, outbound := none }
      else
        let payload := apiPayload env (name.getD "") (email.getD "")
          (subject.getD "") (message.getD "")
        let basicAuth := btoa (env.FORWARDEMAIL_USERNAME ++ ":" ++
          env.FORWARDEMAIL_PASSWORD)
        let apiRequest : OutboundRequest :=
          { url := apiUrl
            method := "POST"
            headers := [("Authorization", "Basic " ++ basicAuth),
                        ("Content-Type", "application/json")]
            body := jsonStringifyPayload payload }
        match fetched with
        | .networkError =>
            -- `fetch` threw; caught by the top-level catch.
            { response := unexpectedErrorResponse
              outbound := some (payload, apiRequest) }
        | .completed r =>
            if !r.ok then
              { response := deliveryFailureResponse
                outbound := some (payload, apiRequest) }
            else
              { response := okResponse
                outbound := some (payload, apiRequest) }

/-! ### Derived views of a valid submission -/

/-- The submitted value of one field, as read past validation
(`body.f`, a string there; `""` stands for the impossible `undefined`). -/
def submittedField (entries : List (String × String)) (key : String) : String :=
  (lookupField entries key).getD ""

/-- The payload the handler builds for a given parsed body and environment. -/
def payloadFor (entries : List (String × String)) (env : Env) : ApiPayload :=
  apiPayload env (submittedField entries "name") (submittedField entries "email")
    (submittedField entries "subject") (submittedField entries "message")

/-- The outbound `Request` the handler builds for a given parsed body and
environment (source lines 44–54). -/
def requestFor (entries : List (String × String)) (env : Env) : OutboundRequest :=
  { url := apiUrl
    method := "POST"
    headers := [("Authorization", "Basic " ++
                  btoa (env.FORWARDEMAIL_USERNAME ++ ":" ++ env.FORWARDEMAIL_PASSWORD)),
                ("Content-Type", "application/json")]
    body := jsonStringifyPayload (payloadFor entries env) }

/-! ### Boundary-safety predicates for counting `<br>` across concatenations

An occurrence of `<br>` straddling the boundary of `a ++ b` must take a
nonempty proper prefix of the marker from the end of `a` and the matching
nonempty suffix from the start of `b`.  `lastSafe a` rules this out from
the left (the last character of `a` is none of `<`, `b`, `r`); `headSafe b`
rules it out from the right (the first character is none of `b`, `r`, `>`). -/

/-- The first character of the list (if any) is not `b`, `r` or `>`. -/
def headSafe : List Char → Bool
  | [] => true
  | c :: _ => !(c == 'b' || c == 'r' || c == '>')

/-- The last character of the list (if any) is not `<`, `b` or `r`. -/
def lastSafe : List Char → Bool
  | [] => true
  | [c] => !(c == '<' || c == 'b' || c == 'r')
  | _ :: c :: t => lastSafe (c :: t)

/-! ### Concrete inputs used by witnesses and counterexamples -/

/-- A concrete environment used for witnesses below. -/
def sampleEnv : Env :=
  { TO_EMAIL := "dest@braz.coach"
    FORWARDEMAIL_USERNAME := "forms@braz.coach"
    FORWARDEMAIL_PASSWORD := "s3cret" }

/-- A concrete valid form body used for witnesses below. -/
def sampleEntries : List (String × String) :=
  [("name", "Jane"), ("email", "jane@x.com"), ("subject", "Hello"),
   ("message", "Hi\nThere")]

/-! ## Helper lemmas -/

/-- Unfolding of `countBr` on a cons cell. -/
theorem countBr_cons (c : Char) (t : List Char) :
    countBr (c :: t) = (if (c :: t).take 4 = brMark then 1 else 0) + countBr t := rfl

/-- `lastSafe` depends only on the last element. -/
theorem lastSafe_tail (c : Char) (a : List Char) (h : lastSafe (c :: a) = true) :
    lastSafe a = true := by
  cases a <;> simp_all [lastSafe]

/-- `headSafe` depends only on the first element. -/
theorem headSafe_append (l x : List Char) (h : l ≠ []) :
    headSafe (l ++ x) = headSafe l := by
  cases l <;> simp_all [headSafe]

/-- A `headSafe` list starts with no nonempty proper suffix of the marker. -/
theorem no_marker_suffix_of_headSafe (b : List Char) (hb : headSafe b = true) :
    b.take 3 ≠ ['b', 'r', '>'] ∧ b.take 2 ≠ ['r', '>'] ∧ b.take 1 ≠ ['>'] := by
  cases b with
  | nil => simp
  | cons x b' =>
      simp only [headSafe, Bool.not_eq_true', Bool.or_eq_false_iff,
        beq_eq_false_iff_ne] at hb
      simp [List.take_succ_cons, hb.1.1, hb.1.2, hb.2]

/-- For nonempty `lastSafe a`, the 4-character window at the head of
`a ++ b` matches the marker exactly when the window inside `a` does. -/
theorem window_lastSafe (a b : List Char) (ha : lastSafe a = true) (hne : a ≠ []) :
    ((a ++ b).take 4 = brMark) ↔ (a.take 4 = brMark) := by
  match a with
  | [c] =>
      simp only [lastSafe, Bool.not_eq_true', Bool.or_eq_false_iff,
        beq_eq_false_iff_ne] at ha
      simp [List.take_succ_cons, brMark, ha.1.1]
  | [c, d] =>
      have hd := lastSafe_tail c [d] ha
      simp only [lastSafe, Bool.not_eq_true', Bool.or_eq_false_iff,
        beq_eq_false_iff_ne] at hd
      simp [List.take_succ_cons, brMark, hd.1.2]
  | [c, d, e] =>
      have he2 := lastSafe_tail d [e] (lastSafe_tail c [d, e] ha)
      simp only [lastSafe, Bool.not_eq_true', Bool.or_eq_false_iff,
        beq_eq_false_iff_ne] at he2
      simp [List.take_succ_cons, brMark, he2.2]
  | c :: d :: e :: f :: t =>
      simp [List.take_succ_cons]

/-- For nonempty `a` and `headSafe b`, the 4-character window at the head
of `a ++ b` matches the marker exactly when the window inside `a` does. -/
theorem window_headSafe (a b : List Char) (hb : headSafe b = true) (hne : a ≠ []) :
    ((a ++ b).take 4 = brMark) ↔ (a.take 4 = brMark) := by
  obtain ⟨h3, h2, h1⟩ := no_marker_suffix_of_headSafe b hb
  match a with
  | [c] => simp [List.take_succ_cons, brMark, h3]
  | [c, d] => simp [List.take_succ_cons, brMark, h2]
  | [c, d, e] => simp [List.take_succ_cons, brMark, h1]
  | c :: d :: e :: f :: t => simp [List.take_succ_cons]

/-- Marker counting distributes over `++` when the left part is
boundary-safe. -/
theorem countBr_append_right (a b : List Char) (ha : lastSafe a = true) :
    countBr (a ++ b) = countBr a + countBr b := by
  induction a with
  | nil => simp [countBr]
  | cons c a' ih =>
      have hw := window_lastSafe (c :: a') b ha (by simp)
      rw [List.cons_append] at hw ⊢
      rw [countBr_cons, countBr_cons, ih (lastSafe_tail c a' ha)]
      simp only [hw]
      omega

/-- Marker counting distributes over `++` when the right part is
boundary-safe. -/
theorem countBr_append_left (a b : List Char) (hb : headSafe b = true) :
    countBr (a ++ b) = countBr a + countBr b := by
  induction a with
  | nil => simp [countBr]
  | cons c a' ih =>
      have hw := window_headSafe (c :: a') b hb (by simp)
      rw [List.cons_append] at hw ⊢
      rw [countBr_cons, countBr_cons, ih]
      simp only [hw]
      omega

/-- Prepending the marker itself adds exactly one occurrence. -/
theorem countBr_brMark_prepend (l : List Char) :
    countBr (brMark ++ l) = 1 + countBr l := by
  show countBr ('<' :: 'b' :: 'r' :: '>' :: l) = 1 + countBr l
  rw [countBr_cons, countBr_cons, countBr_cons, countBr_cons]
  simp [List.take_succ_cons, brMark]

/-- Newline replacement preserves whether a list starts with `>`. -/
theorem take1_rnl (t : List Char) :
    ((replaceNlChars t).take 1 = ['>']) ↔ (t.take 1 = ['>']) := by
  cases t with
  | nil => simp [replaceNlChars]
  | cons a t' =>
      by_cases ha : a = '\n'
      · subst ha; simp [replaceNlChars, brMark, List.take_succ_cons]
      · simp [replaceNlChars, ha, List.take_succ_cons]

/-- Newline replacement preserves whether a list starts with `r>`. -/
theorem take2_rnl (t : List Char) :
    ((replaceNlChars t).take 2 = ['r', '>']) ↔ (t.take 2 = ['r', '>']) := by
  cases t with
  | nil => simp [replaceNlChars]
  | cons a t' =>
      by_cases ha : a = '\n'
      · subst ha; simp [replaceNlChars, brMark, List.take_succ_cons]
      · simp [replaceNlChars, ha, List.take_succ_cons, take1_rnl]

/-- Newline replacement preserves whether a list starts with `br>`. -/
theorem take3_rnl (t : List Char) :
    ((replaceNlChars t).take 3 = ['b', 'r', '>']) ↔ (t.take 3 = ['b', 'r', '>']) := by
  cases t with
  | nil => simp [replaceNlChars]
  | cons a t' =>
      by_cases ha : a = '\n'
      · subst ha; simp [replaceNlChars, brMark, List.take_succ_cons]
      · simp [replaceNlChars, ha, List.take_succ_cons, take2_rnl]

/-- The central counting identity: replacing every newline by `<br>` yields
one marker occurrence per newline, in addition to the occurrences already
present in the original list. -/
theorem countBr_replaceNlChars (l : List Char) :
    countBr (replaceNlChars l) = countNl l + countBr l := by
  induction l with
  | nil => rfl
  | cons c t ih =>
      by_cases hc : c = '\n'
      · subst hc
        have hskip : ('\n' :: t).take 4 ≠ brMark := by
          simp [List.take_succ_cons, brMark]
        rw [show replaceNlChars ('\n' :: t) = brMark ++ replaceNlChars t from by
              simp [replaceNlChars]]
        rw [countBr_brMark_prepend, ih, countBr_cons, if_neg hskip]
        show 1 + (countNl t + countBr t) =
          (if ('\n' : Char) = '\n' then 1 else 0) + countNl t + (0 + countBr t)
        norm_num
        omega
      · rw [show replaceNlChars (c :: t) = c :: replaceNlChars t from by
              simp [replaceNlChars, hc]]
        have hw : ((c :: replaceNlChars t).take 4 = brMark) ↔
            ((c :: t).take 4 = brMark) := by
          simp [List.take_succ_cons, brMark, take3_rnl]
        rw [countBr_cons, countBr_cons, ih]
        simp only [hw]
        show _ = (if c = '\n' then 1 else 0) + countNl t + _
        rw [if_neg hc]
        omega

/-- Marker count of the assembled HTML template, character-list level:
one per newline of the message, plus the markers already present in the
interpolated fields (the fixed template pieces contain none and admit no
boundary-straddling occurrence). -/
theorem countBr_html_chars (n e m : List Char) :
    countBr (htmlTplA.data ++ (n ++ (htmlTplB.data ++ (e ++ (htmlTplC.data ++
        (replaceNlChars m ++ htmlTplD.data))))))
      = countNl m + (countBr n + countBr e + countBr m) := by
  have hA0 : countBr htmlTplA.data = 0 := by decide
  have hB0 : countBr htmlTplB.data = 0 := by decide
  have hC0 : countBr htmlTplC.data = 0 := by decide
  have hD0 : countBr htmlTplD.data = 0 := by decide
  rw [countBr_append_right _ _ (by decide)]
  rw [countBr_append_left _ _ (by rw [headSafe_append _ _ (by decide)]; decide)]
  rw [countBr_append_right _ _ (by decide)]
  rw [countBr_append_left _ _ (by rw [headSafe_append _ _ (by decide)]; decide)]
  rw [countBr_append_right _ _ (by decide)]
  rw [countBr_append_left _ _ (by decide)]
  rw [countBr_replaceNlChars, hA0, hB0, hC0, hD0]
  omega

/-- Newline replacement is the identity on newline-free lists. -/
theorem replaceNlChars_of_no_nl (l : List Char) (h : countNl l = 0) :
    replaceNlChars l = l := by
  induction l with
  | nil => rfl
  | cons c t ih =>
      rw [countNl] at h
      by_cases hc : c = '\n'
      · rw [if_pos hc] at h; omega
      · rw [if_neg hc] at h
        simp [replaceNlChars, hc, ih (by omega)]

/-- Newline replacement is the identity on newline-free strings. -/
theorem replaceNewlines_of_no_nl (s : String) (h : countNlS s = 0) :
    replaceNewlines s = s := by
  show String.mk (replaceNlChars s.data) = s
  rw [replaceNlChars_of_no_nl s.data h]

/-- Reduction of the handler on the validation-failure branch. -/
theorem onRequestPost_missing (entries : List (String × String)) (env : Env)
    (f : FetchOutcome) (h : missingAny entries = true) :
    onRequestPost (.formEntries entries) env f =
      { response := validationFailureResponse, outbound := none } := by
  unfold missingAny at h
  unfold onRequestPost
  simp only [h, if_true]

/-- Reduction of the handler on a valid submission whose outbound call
throws: the exception reaches the top-level catch. -/
theorem onRequestPost_networkError (entries : List (String × String)) (env : Env)
    (h : missingAny entries = false) :
    onRequestPost (.formEntries entries) env .networkError =
      { response := unexpectedErrorResponse
        outbound := some (payloadFor entries env, requestFor entries env) } := by
  unfold missingAny at h
  unfold onRequestPost payloadFor requestFor submittedField
  simp only [h, Bool.false_eq_true, if_false]
  rfl

/-- Reduction of the handler on a valid submission whose outbound call
completes with an upstream response. -/
theorem onRequestPost_completed (entries : List (String × String)) (env : Env)
    (r : ApiResponse) (h : missingAny entries = false) :
    onRequestPost (.formEntries entries) env (.completed r) =
      { response := if !r.ok then deliveryFailureResponse else okResponse
        outbound := some (payloadFor entries env, requestFor entries env) } := by
  unfold missingAny at h
  unfold onRequestPost payloadFor requestFor submittedField
  simp only [h, Bool.false_eq_true, if_false]
  split <;> rfl

/-- Every invocation produces one of the four fixed responses. -/
theorem response_cases (req : RequestBody) (env : Env) (f : FetchOutcome) :
    (onRequestPost req env f).response = validationFailureResponse ∨
    (onRequestPost req env f).response = deliveryFailureResponse ∨
    (onRequestPost req env f).response = unexpectedErrorResponse ∨
    (onRequestPost req env f).response = okResponse := by
  cases req with
  | malformed => right; right; left; rfl
  | formEntries entries =>
      cases hm : missingAny entries with
      | true => rw [onRequestPost_missing _ _ _ hm]; left; rfl
      | false =>
          cases f with
          | networkError =>
              rw [onRequestPost_networkError _ _ hm]; right; right; left; rfl
          | completed r =>
              rw [onRequestPost_completed _ _ _ hm]
              by_cases hr : r.ok
              · right; right; right; simp [hr]
              · right; left; simp [hr]

/-! ## Claims -/

/-- C1: for every request whose form body lacks any of `name`, `email`,
`subject`, `message` (absent or empty), the handler returns status 400 with
the JSON body `success:false, message:"Missing required fields."`, and no
outbound call is attempted. -/
theorem claim1_validation_short_circuit (entries : List (String × String))
    (env : Env) (f : FetchOutcome) (h : missingAny entries = true) :
    (onRequestPost (.formEntries entries) env f).response.status = 400 ∧
    (onRequestPost (.formEntries entries) env f).response.body =
      "\x7b\"success\":false,\"message\":\"Missing required fields.\"\x7d" ∧
    (onRequestPost (.formEntries entries) env f).outbound = none := by
  rw [onRequestPost_missing entries env f h]
  exact ⟨rfl, by decide, rfl⟩

/-- C1 witness: a body missing `email` and `message` at a concrete input. -/
theorem claim1_witness :
    missingAny [("name", "Jane"), ("subject", "Hi")] = true ∧
    ((onRequestPost (.formEntries [("name", "Jane"), ("subject", "Hi")])
        sampleEnv .networkError).response.status = 400 ∧
      (onRequestPost (.formEntries [("name", "Jane"), ("subject", "Hi")])
        sampleEnv .networkError).response.body =
        "\x7b\"success\":false,\"message\":\"Missing required fields.\"\x7d" ∧
      (onRequestPost (.formEntries [("name", "Jane"), ("subject", "Hi")])
        sampleEnv .networkError).outbound = none) :=
  ⟨by decide,
   claim1_validation_short_circuit [("name", "Jane"), ("subject", "Hi")]
     sampleEnv .networkError (by decide)⟩

/-- C2 counterexample: on a valid submission whose outbound call fails at
the transport level (the `fetch` throws), the handler does NOT return the
delivery-failure body `Failed to send email.`; the exception reaches the
top-level catch, which returns `An unexpected error occurred.` (status 500
in both cases, but the bodies differ, refuting the claim as stated). -/
theorem claim2_counterexample :
    missingAny sampleEntries = false ∧
    (onRequestPost (.formEntries sampleEntries) sampleEnv
        .networkError).response.status = 500 ∧
    (onRequestPost (.formEntries sampleEntries) sampleEnv
        .networkError).response.body ≠
      "\x7b\"success\":false,\"message\":\"Failed to send email.\"\x7d" ∧
    (onRequestPost (.formEntries sampleEntries) sampleEnv
        .networkError).response.body =
      "\x7b\"success\":false,\"message\":\"An unexpected error occurred.\"\x7d" := by
  refine ⟨by decide, by decide, by decide, by decide⟩

/-- C2 (amended): on a valid submission, an outbound call that completes
with a non-2xx status yields status 500 with body
`success:false, message:"Failed to send email."`, while a transport-level
failure (exception from the call) is handled by the top-level catch and
yields status 500 with body
`success:false, message:"An unexpected error occurred."`. -/
theorem claim2_amended_split (entries : List (String × String)) (env : Env)
    (r : ApiResponse) (h : missingAny entries = false) (hr : r.ok = false) :
    ((onRequestPost (.formEntries entries) env (.completed r)).response.status = 500 ∧
     (onRequestPost (.formEntries entries) env (.completed r)).response.body =
       "\x7b\"success\":false,\"message\":\"Failed to send email.\"\x7d") ∧
    ((onRequestPost (.formEntries entries) env .networkError).response.status = 500 ∧
     (onRequestPost (.formEntries entries) env .networkError).response.body =
       "\x7b\"success\":false,\"message\":\"An unexpected error occurred.\"\x7d") := by
  rw [onRequestPost_completed entries env r h, onRequestPost_networkError entries env h]
  rw [hr]
  exact ⟨⟨rfl, rfl⟩, rfl, rfl⟩

/-- C2 witness: a concrete valid submission with a 401 upstream response and
with a transport failure. -/
theorem claim2_witness :
    missingAny sampleEntries = false ∧
    (ApiResponse.ok ⟨401, "Unauthorized", "bad credentials"⟩) = false ∧
    (((onRequestPost (.formEntries sampleEntries) sampleEnv
        (.completed ⟨401, "Unauthorized", "bad credentials"⟩)).response.status = 500 ∧
      (onRequestPost (.formEntries sampleEntries) sampleEnv
        (.completed ⟨401, "Unauthorized", "bad credentials"⟩)).response.body =
        "\x7b\"success\":false,\"message\":\"Failed to send email.\"\x7d") ∧
     ((onRequestPost (.formEntries sampleEntries) sampleEnv
        .networkError).response.status = 500 ∧
      (onRequestPost (.formEntries sampleEntries) sampleEnv
        .networkError).response.body =
        "\x7b\"success\":false,\"message\":\"An unexpected error occurred.\"\x7d")) :=
  ⟨by decide, by decide,
   claim2_amended_split sampleEntries sampleEnv ⟨401, "Unauthorized", "bad credentials"⟩
     (by decide) (by decide)⟩

/-- C3: on every valid submission the outbound payload has
`to = [env.TO_EMAIL]` (a one-element sequence), `from` displaying the
submitter's name with the configured sender address, `replyTo` displaying
the submitter's name with the submitter's email, and
`subject = "New Contact Form Submission: " ++ submittedSubject`. -/
theorem claim3_payload_fields (entries : List (String × String)) (env : Env)
    (f : FetchOutcome) (h : missingAny entries = false) :
    (onRequestPost (.formEntries entries) env f).outbound =
      some (payloadFor entries env, requestFor entries env) ∧
    (payloadFor entries env).«to» = [env.TO_EMAIL] ∧
    (payloadFor entries env).fromField =
      "\"" ++ submittedField entries "name" ++ "\" <" ++
        env.FORWARDEMAIL_USERNAME ++ ">" ∧
    (payloadFor entries env).replyTo =
      "\"" ++ submittedField entries "name" ++ "\" <" ++
        submittedField entries "email" ++ ">" ∧
    (payloadFor entries env).subject =
      "New Contact Form Submission: " ++ submittedField entries "subject" := by
  refine ⟨?_, rfl, rfl, rfl, rfl⟩
  cases f with
  | networkError => rw [onRequestPost_networkError entries env h]
  | completed r => rw [onRequestPost_completed entries env r h]

/-- C3 witness: the payload fields at a concrete valid submission. -/
theorem claim3_witness :
    missingAny sampleEntries = false ∧
    ((onRequestPost (.formEntries sampleEntries) sampleEnv
        (.completed ⟨200, "OK", ""⟩)).outbound =
      some (payloadFor sampleEntries sampleEnv, requestFor sampleEntries sampleEnv) ∧
     (payloadFor sampleEntries sampleEnv).«to» = [sampleEnv.TO_EMAIL] ∧
     (payloadFor sampleEntries sampleEnv).fromField =
       "\"" ++ submittedField sampleEntries "name" ++ "\" <" ++
         sampleEnv.FORWARDEMAIL_USERNAME ++ ">" ∧
     (payloadFor sampleEntries sampleEnv).replyTo =
       "\"" ++ submittedField sampleEntries "name" ++ "\" <" ++
         submittedField sampleEntries "email" ++ ">" ∧
     (payloadFor sampleEntries sampleEnv).subject =
       "New Contact Form Submission: " ++ submittedField sampleEntries "subject") :=
  ⟨by decide,
   claim3_payload_fields sampleEntries sampleEnv (.completed ⟨200, "OK", ""⟩) (by decide)⟩

set_option maxRecDepth 16384 in
/-- C4 counterexample: the message `<br>` contains zero newline characters,
yet the rendered HTML contains one line-break marker, refuting the claim
that a message with exactly N newlines yields an HTML payload with exactly
N markers once messages that already contain the text of the marker are
admitted. -/
theorem claim4_counterexample :
    missingAny [("name", "A"), ("email", "E"), ("subject", "S"),
      ("message", "<br>")] = false ∧
    countNlS "<br>" = 0 ∧
    countBrS (payloadFor [("name", "A"), ("email", "E"), ("subject", "S"),
      ("message", "<br>")] sampleEnv).html = 1 := by
  refine ⟨by decide, by decide, by decide⟩

/-- C4 (amended): each newline character of `message` is converted to one
`<br>` marker, and the rendered HTML contains exactly N markers plus the
occurrences of `<br>` already present in the interpolated `name`, `email`
and `message` values (so exactly N whenever no submitted field already
contains the marker text); the fixed template pieces contribute none and
no occurrence straddles an interpolation boundary. -/
theorem claim4_amended (env : Env) (name email subject message : String) :
    countBrS (apiPayload env name email subject message).html =
      countNlS message + (countBrS name + countBrS email + countBrS message) := by
  show countBr (htmlTplA ++ name ++ htmlTplB ++ email ++ htmlTplC ++
    replaceNewlines message ++ htmlTplD).data = _
  simp only [String.data_append, replaceNewlines, List.append_assoc]
  exact countBr_html_chars name.data email.data message.data

/-- C5: on every valid submission whose outbound call completes with a 2xx
status, the handler returns the plain-text body `OK` with status 200 and no
headers (not JSON). -/
theorem claim5_success_plain_ok (entries : List (String × String)) (env : Env)
    (r : ApiResponse) (h : missingAny entries = false) (hok : r.ok = true) :
    (onRequestPost (.formEntries entries) env (.completed r)).response =
      { body := "OK", status := 200, headers := [] } := by
  rw [onRequestPost_completed entries env r h, hok]
  rfl

/-- C5 witness: a concrete valid submission with a 200 upstream response. -/
theorem claim5_witness :
    missingAny sampleEntries = false ∧
    (ApiResponse.ok ⟨200, "OK", "sent"⟩) = true ∧
    (onRequestPost (.formEntries sampleEntries) sampleEnv
        (.completed ⟨200, "OK", "sent"⟩)).response =
      { body := "OK", status := 200, headers := [] } :=
  ⟨by decide, by decide,
   claim5_success_plain_ok sampleEntries sampleEnv ⟨200, "OK", "sent"⟩
     (by decide) (by decide)⟩

/-- C6: the handler is total over its inputs — for every request (including
a malformed body) and every behaviour of the outbound call, the result is
one of the three structured failure responses or the plain `OK` response;
in particular any thrown error (malformed body) is converted by the
top-level catch to status 500 with body
`success:false, message:"An unexpected error occurred."`. -/
theorem claim6_total_structured_responses (req : RequestBody) (env : Env)
    (f : FetchOutcome) :
    ((onRequestPost req env f).response = validationFailureResponse ∨
     (onRequestPost req env f).response = deliveryFailureResponse ∨
     (onRequestPost req env f).response = unexpectedErrorResponse ∨
     (onRequestPost req env f).response = okResponse) ∧
    (onRequestPost .malformed env f).response = unexpectedErrorResponse ∧
    unexpectedErrorResponse.status = 500 ∧
    unexpectedErrorResponse.body =
      "\x7b\"success\":false,\"message\":\"An unexpected error occurred.\"\x7d" :=
  ⟨response_cases req env f, rfl, rfl, by decide⟩

/-- C7: form decoding maps a field name to the value of its LAST occurrence
(`Object.fromEntries` lets later entries overwrite earlier ones): the
lookup the handler uses equals the last matching value of the entry list,
and appending a duplicate entry makes its value the one observed. -/
theorem claim7_last_value_wins :
    (∀ (es : List (String × String)) (k : String),
      lookupField es k =
        (es.filterMap fun kv => if kv.1 = k then some kv.2 else none).getLast?) ∧
    (∀ (es : List (String × String)) (k v : String),
      lookupField (es ++ [(k, v)]) k = some v) := by
  constructor
  · intro es k
    induction es using List.reverseRecOn with
    | nil => rfl
    | append_singleton es kv ih =>
        unfold lookupField at ih ⊢
        rw [List.foldl_append, List.filterMap_append]
        simp only [List.foldl_cons, List.foldl_nil, List.filterMap_cons,
          List.filterMap_nil]
        by_cases hk : kv.1 = k
        · simp [hk, List.getLast?_concat]
        · simp [hk, ih]
  · intro es k v
    unfold lookupField
    rw [List.foldl_append]
    simp

/-- C8: two-run noninterference from upstream error detail to the caller —
any two invocations of the same valid submission whose outbound calls
complete with non-2xx responses produce identical handler results,
whatever the upstream status, status text and body; that common response
is the constant delivery-failure response. -/
theorem claim8_delivery_noninterference (entries : List (String × String))
    (env : Env) (r r' : ApiResponse) (h : missingAny entries = false)
    (hr : r.ok = false) (hr' : r'.ok = false) :
    onRequestPost (.formEntries entries) env (.completed r) =
      onRequestPost (.formEntries entries) env (.completed r') ∧
    (onRequestPost (.formEntries entries) env (.completed r)).response =
      deliveryFailureResponse := by
  rw [onRequestPost_completed entries env r h,
    onRequestPost_completed entries env r' h, hr, hr']
  exact ⟨rfl, rfl⟩

/-- C8 witness: two concrete non-2xx upstream responses with different
statuses, status texts and bodies give identical results. -/
theorem claim8_witness :
    missingAny sampleEntries = false ∧
    (ApiResponse.ok ⟨401, "Unauthorized", "upstream detail A"⟩) = false ∧
    (ApiResponse.ok ⟨503, "Service Unavailable", "upstream detail B"⟩) = false ∧
    (onRequestPost (.formEntries sampleEntries) sampleEnv
        (.completed ⟨401, "Unauthorized", "upstream detail A"⟩) =
      onRequestPost (.formEntries sampleEntries) sampleEnv
        (.completed ⟨503, "Service Unavailable", "upstream detail B"⟩) ∧
     (onRequestPost (.formEntries sampleEntries) sampleEnv
        (.completed ⟨401, "Unauthorized", "upstream detail A"⟩)).response =
      deliveryFailureResponse) :=
  ⟨by decide, by decide, by decide,
   claim8_delivery_noninterference sampleEntries sampleEnv
     ⟨401, "Unauthorized", "upstream detail A"⟩
     ⟨503, "Service Unavailable", "upstream detail B"⟩
     (by decide) (by decide) (by decide)⟩

/-- C9: the submitted `name`, `email` and `message` are interpolated into
the HTML verbatim, with no escaping of HTML metacharacters: the `html`
value is exactly the fixed template pieces around the raw field values,
the only rewriting being newline replacement on `message`, which is the
identity on newline-free strings (so markup passes through unchanged). -/
theorem claim9_verbatim_interpolation (env : Env)
    (name email subject message : String) :
    ((apiPayload env name email subject message).html =
      htmlTplA ++ name ++ htmlTplB ++ email ++ htmlTplC ++
        replaceNewlines message ++ htmlTplD) ∧
    (∀ s : String, countNlS s = 0 → replaceNewlines s = s) :=
  ⟨rfl, replaceNewlines_of_no_nl⟩

/-- C9 witness: a newline-free message that is HTML markup passes through
the rewrite unchanged, and a markup name is embedded verbatim. -/
theorem claim9_witness :
    countNlS "<script>alert(1)</script>" = 0 ∧
    replaceNewlines "<script>alert(1)</script>" = "<script>alert(1)</script>" ∧
    (apiPayload sampleEnv "<i>N</i>" "E" "S" "M").html =
      htmlTplA ++ "<i>N</i>" ++ htmlTplB ++ "E" ++ htmlTplC ++
        replaceNewlines "M" ++ htmlTplD :=
  ⟨by decide,
   (claim9_verbatim_interpolation sampleEnv "<i>N</i>" "E" "S" "M").2
     "<script>alert(1)</script>" (by decide),
   (claim9_verbatim_interpolation sampleEnv "<i>N</i>" "E" "S" "M").1⟩

/-- C10: every response other than the plain `OK` success response carries
exactly the header `Content-Type: application/json`, and the success
response is built with no headers at all; the three failure constants all
carry that header. -/
theorem claim10_headers_by_outcome (req : RequestBody) (env : Env)
    (f : FetchOutcome) :
    ((onRequestPost req env f).response = okResponse ∨
     (onRequestPost req env f).response.headers =
       [("Content-Type", "application/json")]) ∧
    okResponse.headers = [] ∧
    validationFailureResponse.headers = [("Content-Type", "application/json")] ∧
    deliveryFailureResponse.headers = [("Content-Type", "application/json")] ∧
    unexpectedErrorResponse.headers = [("Content-Type", "application/json")] := by
  refine ⟨?_, rfl, rfl, rfl, rfl⟩
  rcases response_cases req env f with h | h | h | h
  · right; rw [h]; rfl
  · right; rw [h]; rfl
  · right; rw [h]; rfl
  · left; exact h

end Submit
